import Mathlib

/-!
Shallow embedding of the `proc-exit` Rust library (src/code.rs, src/exit.rs,
src/bash.rs, src/sysexits.rs, src/lib.rs).

Modelling conventions:
* `Code(i32)` becomes a structure wrapping an `Int`; no arithmetic in the
  library can overflow `i32` (constants stay below 256), so plain `Int` is
  faithful.
* `std::io::ErrorKind` becomes a finite inductive listing every variant the
  source matches on explicitly, plus the stable variants (`WouldBlock`,
  `Unsupported`, `OutOfMemory`) that reach the wildcard `_` arm.
* An `std::io::Error` is modelled by its kind together with its `Display`
  text (a `String`); the type-erased `Box<dyn Display>` message of `Exit`
  is likewise modelled by its display text.
* Conditional compilation (`#[cfg(feature = "portable")]`) becomes an
  explicit `Bool` parameter, and `#[cfg(target_family = "unix")]` likewise.
* `std::process::exit` / panics: the value handed to the OS is modelled
  explicitly; `assert_ne!` failure is modelled as `Option.none`.
* The best-effort `writeln!(stderr, ...)` in `report` is modelled by a
  `Bool` saying whether the stderr stream accepts writes; the function
  returns the code together with the text that actually reached stderr.
-/

namespace ProcExit

/-- The `Code(i32)` newtype of src/code.rs. -/
structure Code where
  raw : Int
deriving DecidableEq, Repr

/-- The `Code::new` constructor (wraps any integer, no validation). -/
def Code.new (code : Int) : Code := ⟨code⟩

/-- SUCCESS constant, `Code(0)`. -/
def Code.SUCCESS : Code := ⟨0⟩

/-- FAILURE constant, `Code(1)`. -/
def Code.FAILURE : Code := ⟨1⟩

/-- UNKNOWN constant, `Code(2)`. -/
def Code.UNKNOWN : Code := ⟨2⟩

/-- USAGE_ERR constant, `Code(64)`. -/
def Code.USAGE_ERR : Code := ⟨64⟩

/-- DATA_ERR constant, `Code(65)`. -/
def Code.DATA_ERR : Code := ⟨65⟩

/-- NO_INPUT constant, `Code(66)`. -/
def Code.NO_INPUT : Code := ⟨66⟩

/-- NO_USER constant, `Code(67)`. -/
def Code.NO_USER : Code := ⟨67⟩

/-- NO_HOST constant, `Code(68)`. -/
def Code.NO_HOST : Code := ⟨68⟩

/-- SERVICE_UNAVAILABLE constant, `Code(69)`. -/
def Code.SERVICE_UNAVAILABLE : Code := ⟨69⟩

/-- SOFTWARE_ERR constant, `Code(70)`. -/
def Code.SOFTWARE_ERR : Code := ⟨70⟩

/-- OS_ERR constant, `Code(71)`. -/
def Code.OS_ERR : Code := ⟨71⟩

/-- OS_FILE_ERR constant, `Code(72)`. -/
def Code.OS_FILE_ERR : Code := ⟨72⟩

/-- CANT_CREAT constant, `Code(73)`. -/
def Code.CANT_CREAT : Code := ⟨73⟩

/-- IO_ERR constant, `Code(74)`. -/
def Code.IO_ERR : Code := ⟨74⟩

/-- TEMP_FAIL constant, `Code(75)`. -/
def Code.TEMP_FAIL : Code := ⟨75⟩

/-- PROTOCOL_ERR constant, `Code(76)`. -/
def Code.PROTOCOL_ERR : Code := ⟨76⟩

/-- NO_PERM constant, `Code(77)`. -/
def Code.NO_PERM : Code := ⟨77⟩

/-- CONFIG_ERR constant, `Code(78)`. -/
def Code.CONFIG_ERR : Code := ⟨78⟩

/-- NOT_EXECUTABLE constant, `Code(126)`. -/
def Code.NOT_EXECUTABLE : Code := ⟨126⟩

/-- NOT_FOUND constant, `Code(127)`. -/
def Code.NOT_FOUND : Code := ⟨127⟩

/-- INVALID_EXIT constant, `Code(128)`. -/
def Code.INVALID_EXIT : Code := ⟨128⟩

/-- SIGBASE private constant (`128`) of the `Code` impl. -/
def Code.SIGBASE : Int := 128

/-- SIGHUP constant, `Code(SIGBASE + 1)`. -/
def Code.SIGHUP : Code := ⟨Code.SIGBASE + 1⟩

/-- SIGINT constant, `Code(SIGBASE + 2)`. -/
def Code.SIGINT : Code := ⟨Code.SIGBASE + 2⟩

/-- SIGQUIT constant, `Code(SIGBASE + 3)`. -/
def Code.SIGQUIT : Code := ⟨Code.SIGBASE + 3⟩

/-- SIGILL constant, `Code(SIGBASE + 4)`. -/
def Code.SIGILL : Code := ⟨Code.SIGBASE + 4⟩

/-- SIGTRAP constant, `Code(SIGBASE + 5)`. -/
def Code.SIGTRAP : Code := ⟨Code.SIGBASE + 5⟩

/-- SIGABRT constant, `Code(SIGBASE + 6)`. -/
def Code.SIGABRT : Code := ⟨Code.SIGBASE + 6⟩

/-- SIGFPE constant, `Code(SIGBASE + 8)`. -/
def Code.SIGFPE : Code := ⟨Code.SIGBASE + 8⟩

/-- SIGKILL constant, `Code(SIGBASE + 9)`. -/
def Code.SIGKILL : Code := ⟨Code.SIGBASE + 9⟩

/-- SIGSEGV constant, `Code(SIGBASE + 11)`. -/
def Code.SIGSEGV : Code := ⟨Code.SIGBASE + 11⟩

/-- SIGPIPE constant, `Code(SIGBASE + 13)`. -/
def Code.SIGPIPE : Code := ⟨Code.SIGBASE + 13⟩

/-- SIGALRM constant, `Code(SIGBASE + 14)`. -/
def Code.SIGALRM : Code := ⟨Code.SIGBASE + 14⟩

/-- SIGTERM constant, `Code(SIGBASE + 15)`. -/
def Code.SIGTERM : Code := ⟨Code.SIGBASE + 15⟩

/-- Models `is_portable`: with the `portable` feature (first argument
`true`) it tests `0 <= self.0 && self.0 <= 255`; without the feature the
source's non-portable variant returns `true` unconditionally. -/
def Code.is_portable (portable : Bool) (c : Code) : Bool :=
  if portable then decide (0 ≤ c.raw) && decide (c.raw ≤ 255) else true

/-- Models `coerce`: `Some(self)` when portable, else `None`.  The source
has two `#[cfg]` copies with identical bodies; only their visibility
differs, so one Lean function with the feature flag covers both. -/
def Code.coerce (portable : Bool) (c : Code) : Option Code :=
  if c.is_portable portable then some c else none

/-- Models `impl Default for Code`: `Self::UNKNOWN` in this revision. -/
def Code.default : Code := Code.UNKNOWN

/-- Models the integer handed to `std::process::exit` by
`Code::process_exit`: `self.coerce().unwrap_or_default().raw()`. -/
def Code.process_exit_status (portable : Bool) (c : Code) : Int :=
  ((c.coerce portable).getD Code.default).raw

/-- Models `Code::is_ok`: `self.0 == Self::SUCCESS.0`. -/
def Code.is_ok (c : Code) : Bool :=
  decide (c.raw = Code.SUCCESS.raw)

/-- Models `Code::is_err`: `!self.is_ok()`. -/
def Code.is_err (c : Code) : Bool :=
  !c.is_ok

/-- The `Exit` error type of src/exit.rs; the `Box<dyn Display>` message is
modelled by its display text. -/
structure Exit where
  code : Code
  msg : Option String
deriving DecidableEq, Repr

/-- Models `Exit::new(code)`: no message. -/
def Exit.new (code : Code) : Exit :=
  { code := code, msg := none }

/-- Models `Exit::with_message`: stores the display text of the message,
replacing any previous one. -/
def Exit.with_message (e : Exit) (msg : String) : Exit :=
  { e with msg := some msg }

/-- Models `impl Display for Exit`: formats the message if present,
otherwise writes nothing. -/
def Exit.display (e : Exit) : String :=
  match e.msg with
  | some m => m
  | none => ""

/-- The `ExitResult` alias: `Result<(), Exit>`. -/
def ExitResult : Type := Except Exit Unit

/-- Models `Code::ok`: `Ok(())` when `self.0 == SUCCESS.0`, else
`Err(Exit::new(self))`. -/
def Code.ok (c : Code) : Except Exit Unit :=
  if c.raw = Code.SUCCESS.raw then Except.ok () else Except.error (Exit.new c)

/-- Models `Code::into_exit`: `assert_ne!(self, Self::SUCCESS)` then
`Exit::new(self)`.  The assertion failure (panic) is modelled as `none`. -/
def Code.into_exit (c : Code) : Option Exit :=
  if c = Code.SUCCESS then none else some (Exit.new c)

/-- The `std::io::ErrorKind` variants: the ones the source matches on
explicitly, plus the stable variants (`WouldBlock`, `Unsupported`,
`OutOfMemory`) that fall through to the wildcard `_` arm of each match. -/
inductive ErrorKind where
  | NotFound
  | PermissionDenied
  | ConnectionRefused
  | ConnectionReset
  | ConnectionAborted
  | NotConnected
  | AddrInUse
  | AddrNotAvailable
  | BrokenPipe
  | AlreadyExists
  | WouldBlock
  | InvalidInput
  | InvalidData
  | TimedOut
  | WriteZero
  | Interrupted
  | Unsupported
  | UnexpectedEof
  | OutOfMemory
  | Other
deriving DecidableEq, Repr, Fintype

/-- Models `impl From<std::io::ErrorKind> for Code` in src/code.rs. -/
def Code.fromErrorKind : ErrorKind → Code
  | .NotFound => Code.OS_FILE_ERR
  | .PermissionDenied => Code.NO_PERM
  | .ConnectionRefused | .ConnectionReset | .ConnectionAborted | .NotConnected =>
      Code.PROTOCOL_ERR
  | .AddrInUse | .AddrNotAvailable => Code.SERVICE_UNAVAILABLE
  | .BrokenPipe => Code.SIGPIPE
  | .AlreadyExists => Code.CANT_CREAT
  | .InvalidInput | .InvalidData | .UnexpectedEof => Code.DATA_ERR
  | .TimedOut => Code.SIGALRM
  | .WriteZero => Code.NO_INPUT
  | .Interrupted => Code.SIGINT
  | .Other => Code.FAILURE
  | _ => Code.IO_ERR

/-- An `std::io::Error`, modelled by its kind and its `Display` text. -/
structure IoError where
  kind : ErrorKind
  text : String
deriving DecidableEq, Repr

/-- Models `impl From<std::io::Error> for Exit` in src/exit.rs:
`Self::new(err.kind().into()).with_message(err)`. -/
def Exit.fromIoError (err : IoError) : Exit :=
  (Exit.new (Code.fromErrorKind err.kind)).with_message err.text

namespace bash

/-- USAGE constant of src/bash.rs, `Code::new(2)`. -/
def USAGE : Code := Code.new 2

/-- NOT_EXECUTABLE constant of src/bash.rs, `Code::new(126)`. -/
def NOT_EXECUTABLE : Code := Code.new 126

/-- NOT_FOUND constant of src/bash.rs, `Code::new(127)`. -/
def NOT_FOUND : Code := Code.new 127

/-- INVALID_EXIT constant of src/bash.rs, `Code::new(128)`. -/
def INVALID_EXIT : Code := Code.new 128

/-- STATUS_OUT_OF_RANGE constant of src/bash.rs, `Code::new(255)`. -/
def STATUS_OUT_OF_RANGE : Code := Code.new 255

/-- SIGBASE private constant (`128`) of src/bash.rs. -/
def SIGBASE : Int := 128

/-- SIGHUP constant of src/bash.rs, `Code::new(SIGBASE + 1)`. -/
def SIGHUP : Code := Code.new (SIGBASE + 1)

/-- SIGINT constant of src/bash.rs, `Code::new(SIGBASE + 2)`. -/
def SIGINT : Code := Code.new (SIGBASE + 2)

/-- SIGQUIT constant of src/bash.rs, `Code::new(SIGBASE + 3)`. -/
def SIGQUIT : Code := Code.new (SIGBASE + 3)

/-- SIGILL constant of src/bash.rs, `Code::new(SIGBASE + 4)`. -/
def SIGILL : Code := Code.new (SIGBASE + 4)

/-- SIGTRAP constant of src/bash.rs, `Code::new(SIGBASE + 5)`. -/
def SIGTRAP : Code := Code.new (SIGBASE + 5)

/-- SIGABRT constant of src/bash.rs, `Code::new(SIGBASE + 6)`. -/
def SIGABRT : Code := Code.new (SIGBASE + 6)

/-- SIGFPE constant of src/bash.rs, `Code::new(SIGBASE + 8)`. -/
def SIGFPE : Code := Code.new (SIGBASE + 8)

/-- SIGKILL constant of src/bash.rs, `Code::new(SIGBASE + 9)`. -/
def SIGKILL : Code := Code.new (SIGBASE + 9)

/-- SIGSEGV constant of src/bash.rs, `Code::new(SIGBASE + 11)`. -/
def SIGSEGV : Code := Code.new (SIGBASE + 11)

/-- SIGPIPE constant of src/bash.rs, `Code::new(SIGBASE + 13)`. -/
def SIGPIPE : Code := Code.new (SIGBASE + 13)

/-- SIGALRM constant of src/bash.rs, `Code::new(SIGBASE + 14)`. -/
def SIGALRM : Code := Code.new (SIGBASE + 14)

/-- SIGTERM constant of src/bash.rs, `Code::new(SIGBASE + 15)`. -/
def SIGTERM : Code := Code.new (SIGBASE + 15)

/-- Models `bash::io_to_signal` in src/bash.rs (stated after the signal
constants it refers to). -/
def io_to_signal : ErrorKind → Option Code
  | .BrokenPipe => some SIGPIPE
  | .TimedOut => some SIGALRM
  | .Interrupted => some SIGINT
  | _ => none

end bash

namespace sysexits

/-- IO_ERR constant of src/sysexits.rs, `Code::new(74)`. -/
def IO_ERR : Code := Code.new 74

/-- OS_FILE_ERR constant of src/sysexits.rs, `Code::new(72)`. -/
def OS_FILE_ERR : Code := Code.new 72

/-- NO_PERM constant of src/sysexits.rs, `Code::new(77)`. -/
def NO_PERM : Code := Code.new 77

/-- PROTOCOL_ERR constant of src/sysexits.rs, `Code::new(76)`. -/
def PROTOCOL_ERR : Code := Code.new 76

/-- SERVICE_UNAVAILABLE constant of src/sysexits.rs, `Code::new(69)`. -/
def SERVICE_UNAVAILABLE : Code := Code.new 69

/-- CANT_CREAT constant of src/sysexits.rs, `Code::new(73)`. -/
def CANT_CREAT : Code := Code.new 73

/-- DATA_ERR constant of src/sysexits.rs, `Code::new(65)`. -/
def DATA_ERR : Code := Code.new 65

/-- NO_INPUT constant of src/sysexits.rs, `Code::new(66)`. -/
def NO_INPUT : Code := Code.new 66

/-- Models `sysexits::io_to_sysexists` (name kept with the source's
spelling) in src/sysexits.rs. -/
def io_to_sysexists : ErrorKind → Option Code
  | .NotFound => some OS_FILE_ERR
  | .PermissionDenied => some NO_PERM
  | .ConnectionRefused | .ConnectionReset | .ConnectionAborted | .NotConnected =>
      some PROTOCOL_ERR
  | .AddrInUse | .AddrNotAvailable => some SERVICE_UNAVAILABLE
  | .AlreadyExists => some CANT_CREAT
  | .InvalidInput | .InvalidData | .UnexpectedEof => some DATA_ERR
  | .WriteZero => some NO_INPUT
  | _ => none

/-- The closure body of `ToSysexitsResultExt::to_sysexits` applied to one
error: `io_to_sysexists(kind).or_else(|| bash::io_to_signal(kind))
.unwrap_or(IO_ERR)`, then `Exit::new(code).with_message(e)`. -/
def exit_of_error (e : IoError) : Exit :=
  let code := ((io_to_sysexists e.kind).orElse
    (fun _ => bash.io_to_signal e.kind)).getD IO_ERR
  (Exit.new code).with_message e.text

/-- Models `ToSysexitsResultExt::to_sysexits` on `Result<T, io::Error>`. -/
def to_sysexits {T : Type} (r : Except IoError T) : Except Exit T :=
  match r with
  | .ok v => .ok v
  | .error e => .error (exit_of_error e)

end sysexits

/-- A `std::process::ExitStatus` as observable through the accessors the
source uses: `code()` and (on Unix) `ExitStatusExt::signal()`. -/
structure ExitStatus where
  code : Option Int
  signal : Option Int
deriving DecidableEq, Repr

/-- Models `platform_exit_code` in src/code.rs: the Unix `cfg` variant is
`status.code().or_else(|| status.signal())`, the non-Unix variant is
`status.code()`. -/
def platform_exit_code (unix : Bool) (status : ExitStatus) : Option Int :=
  if unix then status.code.orElse (fun _ => status.signal) else status.code

/-- Models `impl From<std::process::ExitStatus> for Code` (and
`Code::from_status`, which delegates to it):
`platform_exit_code(status).unwrap_or(Code::UNKNOWN.0)` wrapped by the
`From<i32>` conversion. -/
def Code.from_status (unix : Bool) (status : ExitStatus) : Code :=
  Code.new ((platform_exit_code unix status).getD Code.UNKNOWN.raw)

/-- Models `ProcessExitResultExt::report` in src/exit.rs.  `stderrOpen`
says whether the stderr stream accepts writes (the `writeln!` result is
discarded by the source, best-effort).  Returns the code the function
returns together with the text that actually reached stderr. -/
def report (stderrOpen : Bool) (r : Except Exit Unit) : Code × String :=
  match r with
  | .ok () => (Code.SUCCESS, "")
  | .error err =>
    match err.msg with
    | some m => (err.code, if stderrOpen then m ++ "\n" else "")
    | none => (err.code, "")

/-- The error kinds the `From<std::io::ErrorKind> for Code` match lists
explicitly; every other kind reaches its wildcard arm. -/
def explicitlyMappedKinds : List ErrorKind :=
  [.NotFound, .PermissionDenied, .ConnectionRefused, .ConnectionReset,
   .ConnectionAborted, .NotConnected, .AddrInUse, .AddrNotAvailable,
   .BrokenPipe, .AlreadyExists, .InvalidInput, .InvalidData, .UnexpectedEof,
   .TimedOut, .WriteZero, .Interrupted, .Other]

/-- C1: evaluation of `Code::from_status` at the failing input.  A Unix
process completion status with no direct completion value and terminating
signal 9 is converted to the code with raw value 9, because
`platform_exit_code` is `status.code().or_else(|| status.signal())`
without adding 128; the specification (and the crate's own documentation
of the 128+N convention) demands 137. -/
theorem from_status_fatal_signal_nine :
    Code.from_status true { code := none, signal := some 9 } = Code.new 9 ∧
    Code.new 9 ≠ Code.new 137 := by
  exact ⟨rfl, by decide⟩

/-- C2 counterexample: on the uncategorized `Other` kind the two
conversions disagree — `From<std::io::Error> for Exit` (which goes through
`From<ErrorKind> for Code`) yields FAILURE (1), while
`to_sysexits` yields IO_ERR (74). -/
theorem io_error_conversions_differ_on_other :
    (Exit.fromIoError { kind := .Other, text := "x" }).code = Code.FAILURE ∧
    (sysexits.exit_of_error { kind := .Other, text := "x" }).code =
      sysexits.IO_ERR ∧
    Code.FAILURE ≠ sysexits.IO_ERR := by
  exact ⟨rfl, rfl, by decide⟩

/-- C2 (amended): both conversions attach the error's display text as the
message, and they produce the same code for every error kind except the
uncategorized `Other` kind, where the `From` conversion gives FAILURE (1)
while `to_sysexits` (sysexits mapping, then signal mapping, then IO_ERR)
gives IO_ERR (74). -/
theorem io_error_exit_conversions_agree_except_other (e : IoError) :
    (Exit.fromIoError e).msg = some e.text ∧
    (sysexits.exit_of_error e).msg = some e.text ∧
    (e.kind ≠ ErrorKind.Other →
      (Exit.fromIoError e).code = (sysexits.exit_of_error e).code) ∧
    (e.kind = ErrorKind.Other →
      (Exit.fromIoError e).code = Code.FAILURE ∧
      (sysexits.exit_of_error e).code = sysexits.IO_ERR) := by
  obtain ⟨k, t⟩ := e
  cases k <;>
    first
      | exact ⟨rfl, rfl, fun _ => rfl, fun h => nomatch h⟩
      | exact ⟨rfl, rfl, fun h => absurd rfl h, fun _ => ⟨rfl, rfl⟩⟩

/-- C2 witness: the amended theorem applied at a concrete non-`Other`
error, with the hypothesis discharged. -/
theorem io_error_exit_conversions_agree_witness :
    ErrorKind.NotFound ≠ ErrorKind.Other ∧
    (Exit.fromIoError { kind := .NotFound, text := "x" }).code =
      (sysexits.exit_of_error { kind := .NotFound, text := "x" }).code :=
  ⟨by decide,
   (io_error_exit_conversions_agree_except_other
     { kind := .NotFound, text := "x" }).2.2.1 (by decide)⟩

/-- C3: the `From<std::io::ErrorKind> for Code` mapping is total (a Lean
function on the finite kind type) and matches the specified table on every
input, with the uncategorized `Other` kind mapped to FAILURE (1) and every
kind outside the explicit list mapped to IO_ERR (74). -/
theorem fromErrorKind_matches_table :
    (Code.fromErrorKind .NotFound = Code.new 72 ∧
     Code.fromErrorKind .PermissionDenied = Code.new 77 ∧
     Code.fromErrorKind .ConnectionRefused = Code.new 76 ∧
     Code.fromErrorKind .ConnectionReset = Code.new 76 ∧
     Code.fromErrorKind .ConnectionAborted = Code.new 76 ∧
     Code.fromErrorKind .NotConnected = Code.new 76 ∧
     Code.fromErrorKind .AddrInUse = Code.new 69 ∧
     Code.fromErrorKind .AddrNotAvailable = Code.new 69 ∧
     Code.fromErrorKind .BrokenPipe = Code.new 141 ∧
     Code.fromErrorKind .AlreadyExists = Code.new 73 ∧
     Code.fromErrorKind .InvalidInput = Code.new 65 ∧
     Code.fromErrorKind .InvalidData = Code.new 65 ∧
     Code.fromErrorKind .UnexpectedEof = Code.new 65 ∧
     Code.fromErrorKind .TimedOut = Code.new 142 ∧
     Code.fromErrorKind .WriteZero = Code.new 66 ∧
     Code.fromErrorKind .Interrupted = Code.new 130 ∧
     Code.fromErrorKind .Other = Code.new 1) ∧
    (∀ k : ErrorKind, k ∉ explicitlyMappedKinds →
      Code.fromErrorKind k = Code.new 74) := by
  decide

/-- C3 witness: the wildcard arm evaluated at a concrete unlisted kind. -/
theorem fromErrorKind_matches_table_witness :
    ErrorKind.WouldBlock ∉ explicitlyMappedKinds ∧
    Code.fromErrorKind .WouldBlock = Code.new 74 :=
  ⟨by decide, fromErrorKind_matches_table.2 .WouldBlock (by decide)⟩

/-- C4 counterexample: in the configuration without the `portable`
feature, `is_portable` returns `true` even for the out-of-range raw value
256, contradicting the claim that it is false outside [0,255] in both
configurations. -/
theorem is_portable_nonportable_cfg_counterexample :
    (Code.new 256).is_portable false = true ∧
    ¬((Code.new 256).raw ≤ 255) := by
  exact ⟨rfl, by decide⟩

/-- C4 (amended): with the `portable` feature, `is_portable` is true iff
the raw value lies in [0,255]; without the feature it is constantly
true. -/
theorem is_portable_iff_in_range (c : Code) :
    (c.is_portable true = true ↔ 0 ≤ c.raw ∧ c.raw ≤ 255) ∧
    c.is_portable false = true := by
  constructor
  · simp [Code.is_portable]
  · rfl

/-- C4 witness: the amended theorem applied at a concrete in-range code. -/
theorem is_portable_iff_in_range_witness :
    (0 ≤ (Code.new 200).raw ∧ (Code.new 200).raw ≤ 255) ∧
    (Code.new 200).is_portable true = true :=
  ⟨by decide, (is_portable_iff_in_range (Code.new 200)).1.mpr (by decide)⟩

/-- C5: each named signal constant, in the `Code` catalog of src/code.rs
and in src/bash.rs, equals the code with raw value 128+N for its POSIX
signal number N. -/
theorem signal_constants_are_128_plus_n :
    Code.SIGHUP = Code.new (128 + 1) ∧
    Code.SIGINT = Code.new (128 + 2) ∧
    Code.SIGQUIT = Code.new (128 + 3) ∧
    Code.SIGILL = Code.new (128 + 4) ∧
    Code.SIGTRAP = Code.new (128 + 5) ∧
    Code.SIGABRT = Code.new (128 + 6) ∧
    Code.SIGFPE = Code.new (128 + 8) ∧
    Code.SIGKILL = Code.new (128 + 9) ∧
    Code.SIGSEGV = Code.new (128 + 11) ∧
    Code.SIGPIPE = Code.new (128 + 13) ∧
    Code.SIGALRM = Code.new (128 + 14) ∧
    Code.SIGTERM = Code.new (128 + 15) ∧
    bash.SIGHUP = Code.new (128 + 1) ∧
    bash.SIGINT = Code.new (128 + 2) ∧
    bash.SIGQUIT = Code.new (128 + 3) ∧
    bash.SIGILL = Code.new (128 + 4) ∧
    bash.SIGTRAP = Code.new (128 + 5) ∧
    bash.SIGABRT = Code.new (128 + 6) ∧
    bash.SIGFPE = Code.new (128 + 8) ∧
    bash.SIGKILL = Code.new (128 + 9) ∧
    bash.SIGSEGV = Code.new (128 + 11) ∧
    bash.SIGPIPE = Code.new (128 + 13) ∧
    bash.SIGALRM = Code.new (128 + 14) ∧
    bash.SIGTERM = Code.new (128 + 15) := by
  decide

/-- C6: `report` returns SUCCESS and writes nothing on `Ok(())`; on
`Err(e)` it returns exactly `e`'s code, writing `e`'s message followed by
a newline to stderr when a message is present and the stream accepts the
write, and writing nothing when there is no message or the best-effort
write fails (the failure is swallowed: the returned code is unchanged). -/
theorem report_behavior (b : Bool) (c : Code) (m : String) :
    report b (Except.ok ()) = (Code.SUCCESS, "") ∧
    report b (Except.error (Exit.new c)) = (c, "") ∧
    report true (Except.error ((Exit.new c).with_message m)) =
      (c, m ++ "\n") ∧
    report false (Except.error ((Exit.new c).with_message m)) = (c, "") := by
  exact ⟨rfl, rfl, rfl, rfl⟩

/-- C7: `Code::ok` returns `Ok(())` exactly on SUCCESS, and on every other
code returns `Err` of an `Exit` wrapping that code with no message. -/
theorem ok_success_iff (c : Code) :
    (Code.ok c = Except.ok () ↔ c = Code.SUCCESS) ∧
    (c ≠ Code.SUCCESS → Code.ok c = Except.error (Exit.new c)) := by
  obtain ⟨n⟩ := c
  have hiff : (Code.mk n = Code.SUCCESS) ↔ n = 0 := by
    simp [Code.SUCCESS, Code.mk.injEq]
  by_cases h : n = 0
  · subst h
    exact ⟨⟨fun _ => rfl, fun _ => rfl⟩, fun hne => absurd rfl hne⟩
  · have hok : Code.ok (Code.mk n) = Except.error (Exit.new (Code.mk n)) := by
      simp [Code.ok, Code.SUCCESS, h]
    refine ⟨⟨fun hx => ?_, fun hx => absurd (hiff.mp hx) h⟩, fun _ => hok⟩
    rw [hok] at hx
    exact Except.noConfusion hx

/-- C7 witness: `Code::ok` at FAILURE, with the hypothesis discharged. -/
theorem ok_success_iff_witness :
    Code.FAILURE ≠ Code.SUCCESS ∧
    Code.ok Code.FAILURE = Except.error (Exit.new Code.FAILURE) :=
  ⟨by decide, (ok_success_iff Code.FAILURE).2 (by decide)⟩

/-- C8: `coerce().unwrap_or_default()` (the value `process_exit` uses) is
a success code exactly when the original code is SUCCESS, in either
feature configuration; in particular, with the `portable` feature an
out-of-range raw value resolves to the default code UNKNOWN, which is not
a success code. -/
theorem coerce_or_default_not_silent_success (p : Bool) (c : Code) :
    (((c.coerce p).getD Code.default).is_ok = true ↔ c = Code.SUCCESS) ∧
    ((c.raw < 0 ∨ 255 < c.raw) →
      (c.coerce true).getD Code.default = Code.UNKNOWN ∧
      Code.UNKNOWN.is_ok = false) := by
  obtain ⟨n⟩ := c
  have hnp : ((Code.mk n).coerce true).getD Code.default =
      if 0 ≤ n ∧ n ≤ 255 then Code.mk n else Code.UNKNOWN := by
    simp [Code.coerce, Code.is_portable, Code.default]
    split <;> simp_all
  constructor
  · cases p
    · simp [Code.coerce, Code.is_portable, Code.is_ok, Code.SUCCESS,
        Code.mk.injEq]
    · rw [hnp]
      split
      · simp [Code.is_ok, Code.SUCCESS, Code.mk.injEq]
      · simp only [Code.is_ok]
        constructor
        · intro hx
          exfalso
          have : (Code.UNKNOWN).raw = Code.SUCCESS.raw := by
            exact of_decide_eq_true hx
          exact absurd this (by decide)
        · intro hx
          exact absurd (by simpa [Code.SUCCESS, Code.mk.injEq] using hx)
            (by omega)
  · intro h
    rw [hnp]
    refine ⟨?_, by decide⟩
    have : ¬(0 ≤ n ∧ n ≤ 255) := by
      simp only [Code.raw] at h
      omega
    simp [this]

/-- C8 witness: the out-of-range raw value 256 resolves to UNKNOWN. -/
theorem coerce_or_default_not_silent_success_witness :
    ((Code.new 256).raw < 0 ∨ 255 < (Code.new 256).raw) ∧
    ((Code.new 256).coerce true).getD Code.default = Code.UNKNOWN :=
  ⟨by decide,
   ((coerce_or_default_not_silent_success true (Code.new 256)).2
     (by decide)).1⟩

/-- C9: `Code::into_exit` fails its assertion (modelled as `none`) exactly
on SUCCESS, and on every other code returns the `Exit` wrapping that code
with no message, without panicking. -/
theorem into_exit_asserts_on_success :
    Code.into_exit Code.SUCCESS = none ∧
    ∀ c : Code, c ≠ Code.SUCCESS → Code.into_exit c = some (Exit.new c) := by
  refine ⟨rfl, fun c h => ?_⟩
  simp [Code.into_exit, h]

/-- C9 witness: `into_exit` at FAILURE, with the hypothesis discharged. -/
theorem into_exit_asserts_on_success_witness :
    Code.FAILURE ≠ Code.SUCCESS ∧
    Code.into_exit Code.FAILURE = some (Exit.new Code.FAILURE) :=
  ⟨by decide, into_exit_asserts_on_success.2 Code.FAILURE (by decide)⟩

/-- C10: every `Exit` produced by `From<std::io::Error>` carries a message
(`msg` is `Some` of the error's display text), its `Display` output is
exactly that text, and so it is nonempty whenever the underlying error's
display text is nonempty. -/
theorem fromIoError_always_has_message (e : IoError) :
    (Exit.fromIoError e).msg = some e.text ∧
    (Exit.fromIoError e).display = e.text ∧
    (e.text ≠ "" → (Exit.fromIoError e).display ≠ "") := by
  obtain ⟨k, t⟩ := e
  exact ⟨rfl, rfl, fun h => h⟩

/-- C10 witness: the conversion at a concrete error with nonempty text. -/
theorem fromIoError_always_has_message_witness :
    ("boom" ≠ "") ∧
    (Exit.fromIoError { kind := .NotFound, text := "boom" }).display ≠ "" :=
  ⟨by decide,
   (fromIoError_always_has_message
     { kind := .NotFound, text := "boom" }).2.2 (by decide)⟩

end ProcExit
